import Mathlib

/-!
Shallow embedding of `scripts/check_db.py`: a linear diagnostic script that,
for a fixed dictionary of candidate SQLite database files, prints a header,
checks file existence, opens the database read-only, lists tables, samples
keys from the two special key-value tables (`ItemTable`, `cursorDiskKV`),
reports non-empty generic tables, and closes the connection.  The external
world (filesystem and SQLite engine) is modelled as data: a database is a
schema catalog with row contents, plus an error-injection map saying which
query raises.  Console output is modelled structurally: one `Line`
constructor per distinct `print` call of the script.
-/

namespace CheckDb

/-- One schema-catalog entry of a SQLite file: its name, its catalog kind
(the `type` column of `sqlite_master`, e.g. `"table"` or `"index"`), its
column names in schema order (`PRAGMA table_info` order, field `d[1]`),
and its rows (each row a list of cell values in column order). -/
structure TableData where
  name : String
  kind : String
  columns : List String
  rows : List (List String)
deriving DecidableEq, Repr

/-- The SQL queries the script issues against one open connection. -/
inductive Query where
  | listTables
  | selectKeys (table : String)
  | countRows (table : String)
  | tableInfo (table : String)

/-- An open database: its catalog contents plus an error-injection map
(`fail q = some msg` means executing query `q` raises an exception with
message `msg`, as a locked or corrupt file would). -/
structure DB where
  tables : List TableData
  fail : Query → Option String

/-- The state of one candidate path in the outside world: the file is
absent, or present (in which case `sqlite3.connect` either raises
`connectErr` or yields a handle on database `db`). -/
inductive FileState where
  | missing
  | present (connectErr : Option String) (db : DB)

/-- One printed line, one constructor per distinct `print` call:
the candidate header, `FILE NOT FOUND`, the `Tables:` line, the two
key-sample lines, the `Chat-related keys:` line, the generic-table line,
and the `ERROR:` line of the candidate-level handler. -/
inductive Line where
  | header (name path : String)
  | fileNotFound
  | tablesLine (tables : List String)
  | itemTableKeys (count : Nat) (sample : List String)
  | diskKVKeys (count : Nat) (sample : List String)
  | chatKeys (keys : List String)
  | genericTable (name : String) (count : Nat) (cols : List String)
  | error (msg : String)
deriving DecidableEq, Repr

/-- `SELECT name FROM sqlite_master WHERE type='table'` (line 18): the
names of the catalog entries of kind `"table"`, in catalog order. -/
def listTables (db : DB) : Except String (List String) :=
  match db.fail .listTables with
  | some e => .error e
  | none => .ok ((db.tables.filter (fun t => t.kind == "table")).map (fun t => t.name))

/-- Catalog lookup of a table by name. -/
def findTable (db : DB) (t : String) : Option TableData :=
  db.tables.find? (fun td => td.name == t)

/-- `SELECT key FROM <t> LIMIT 30` (lines 22 and 29): the `key` column of
the first 30 rows, in storage order. -/
def selectKeys (db : DB) (t : String) : Except String (List String) :=
  match db.fail (.selectKeys t) with
  | some e => .error e
  | none =>
    match findTable db t with
    | none => .error ("no such table: " ++ t)
    | some td =>
      match td.columns.findIdx? (fun c2 => c2 == "key") with
      | none => .error ("no such column: key")
      | some i => .ok ((td.rows.take 30).map (fun r => r.getD i ""))

/-- `SELECT COUNT(*) FROM [t]` (line 39). -/
def countRows (db : DB) (t : String) : Except String Nat :=
  match db.fail (.countRows t) with
  | some e => .error e
  | none =>
    match findTable db t with
    | none => .error ("no such table: " ++ t)
    | some td => .ok td.rows.length

/-- `PRAGMA table_info([t])`, projected to column names `d[1]` (line 41). -/
def tableInfo (db : DB) (t : String) : Except String (List String) :=
  match db.fail (.tableInfo t) with
  | some e => .error e
  | none =>
    match findTable db t with
    | none => .error ("no such table: " ++ t)
    | some td => .ok td.columns

/-- Python `k.lower()`: per-character lowercasing, as a character list. -/
def lowerStr (k : String) : List Char := k.data.map Char.toLower

/-- Python `pat in s`: substring containment. -/
def containsSub (pat s : List Char) : Bool := decide (pat <:+: s)

/-- The ItemTable chat filter (line 24): `"chat" in k.lower() or
"composer" in k.lower() or "aichat" in k.lower() or "bubble" in k.lower()`. -/
def itemChatLike (k : String) : Bool :=
  containsSub "chat".data (lowerStr k) || containsSub "composer".data (lowerStr k) ||
    containsSub "aichat".data (lowerStr k) || containsSub "bubble".data (lowerStr k)

/-- The cursorDiskKV chat filter (line 31): `"composer" in k.lower() or
"bubble" in k.lower() or "chat" in k.lower()`. -/
def diskChatLike (k : String) : Bool :=
  containsSub "composer".data (lowerStr k) || containsSub "bubble".data (lowerStr k) ||
    containsSub "chat".data (lowerStr k)

/-- Lines 21-26: the ItemTable block.  Returns the lines it printed and,
when the key query raised, the exception (which propagates to the
candidate-level handler: nothing after the failing query runs). -/
def itemSection (db : DB) (tables : List String) : List Line × Option String :=
  if "ItemTable" ∈ tables then
    match selectKeys db "ItemTable" with
    | .error e => ([], some e)
    | .ok keys =>
      let chatKeys := keys.filter itemChatLike
      ([Line.itemTableKeys keys.length (keys.take 15)] ++
        (if chatKeys.isEmpty then [] else [Line.chatKeys chatKeys]), none)
  else ([], none)

/-- Lines 28-33: the cursorDiskKV block, same shape as the ItemTable one
but with the filter of line 31. -/
def diskSection (db : DB) (tables : List String) : List Line × Option String :=
  if "cursorDiskKV" ∈ tables then
    match selectKeys db "cursorDiskKV" with
    | .error e => ([], some e)
    | .ok keys =>
      let chatKeys := keys.filter diskChatLike
      ([Line.diskKVKeys keys.length (keys.take 15)] ++
        (if chatKeys.isEmpty then [] else [Line.chatKeys chatKeys]), none)
  else ([], none)

/-- Lines 37-44, one iteration: skip the two special names; otherwise
count rows and, when non-zero, fetch column names and print one line.
The inner bare `except: pass` swallows any error, so the iteration
never fails and an errored table prints nothing. -/
def genericLine (db : DB) (t : String) : List Line :=
  if t == "ItemTable" || t == "cursorDiskKV" then []
  else
    match countRows db t with
    | .error _ => []
    | .ok n =>
      if n > 0 then
        match tableInfo db t with
        | .error _ => []
        | .ok cols => [Line.genericTable t n cols]
      else []

/-- Lines 36-44: the generic-table loop over all listed tables. -/
def scanGeneric (db : DB) : List String → List Line
  | [] => []
  | t :: ts => genericLine db t ++ scanGeneric db ts

/-- Lines 18-45: the body of the `try` block after a successful connect.
Returns the printed lines and, when some query raised, the exception; a
raise skips everything after it (including `c.close()` on line 45). -/
def inspectBody (db : DB) : List Line × Option String :=
  match listTables db with
  | .error e => ([], some e)
  | .ok tables =>
    match itemSection db tables with
    | (o1, some e) => (Line.tablesLine tables :: o1, some e)
    | (o1, none) =>
      match diskSection db tables with
      | (o2, some e) => (Line.tablesLine tables :: (o1 ++ o2), some e)
      | (o2, none) =>
        (Line.tablesLine tables :: (o1 ++ o2 ++ scanGeneric db tables), none)

/-- The outcome for one candidate: its printed lines, whether
`sqlite3.connect` was attempted, whether it returned a handle, and whether
`c.close()` (line 45) ran before moving on to the next candidate. -/
structure CandResult where
  lines : List Line
  connectAttempted : Bool
  opened : Bool
  closed : Bool
deriving DecidableEq, Repr

/-- Lines 12-47, one loop iteration: header, existence check with early
`continue`, then the `try` block; `except Exception as e` prints
`ERROR: <e>` and falls through to the next candidate.  `c.close()` runs
only when the whole body completed without raising. -/
def inspectCandidate (name path : String) (fs : FileState) : CandResult :=
  match fs with
  | .missing => ⟨[Line.header name path, Line.fileNotFound], false, false, false⟩
  | .present (some e) _ => ⟨[Line.header name path, Line.error e], true, false, false⟩
  | .present none db =>
    match inspectBody db with
    | (out, some e) => ⟨Line.header name path :: (out ++ [Line.error e]), true, true, false⟩
    | (out, none) => ⟨Line.header name path :: out, true, true, true⟩

/-- The exception (if any) raised while processing one candidate, i.e.
what the candidate-level `except` handler catches. -/
def candErr (fs : FileState) : Option String :=
  match fs with
  | .missing => none
  | .present (some e) _ => some e
  | .present none db => (inspectBody db).2

/-- Lines 11-47: the whole run, one `CandResult` per configured candidate,
in order.  `world` maps a path to the state of the outside world there. -/
def runScript (cands : List (String × String)) (world : String → FileState) :
    List CandResult :=
  cands.map (fun c => inspectCandidate c.1 c.2 (world c.2))

/-- Lines 5-9: the hardcoded candidate dictionary of the script. -/
def dbs : List (String × String) :=
  [("Trae CN", "C:\\Users\\Administrator\\AppData\\Roaming\\Trae CN\\User\\globalStorage\\state.vscdb"),
   ("Trae", "C:\\Users\\Administrator\\AppData\\Roaming\\Trae\\User\\globalStorage\\state.vscdb"),
   ("Windsurf", "C:\\Users\\Administrator\\AppData\\Roaming\\Windsurf\\User\\globalStorage\\state.vscdb")]

/-! ### Concrete databases and worlds used by witnesses and counterexamples -/

/-- An empty database with no injected failures. -/
def dbEmpty : DB := ⟨[], fun _ => none⟩

/-- A database with an `ItemTable`, an index entry, and a generic table. -/
def dbSample : DB :=
  ⟨[⟨"ItemTable", "table", ["key", "value"], [["k1", "v1"], ["MyChatSession", "v2"]]⟩,
    ⟨"idx_keys", "index", [], []⟩,
    ⟨"cursorDiskKV", "table", ["key", "value"], [["composerData", "v"]]⟩,
    ⟨"Blobs", "table", ["id", "data"], [["1", "x"]]⟩,
    ⟨"EmptyT", "table", ["id"], []⟩],
   fun _ => none⟩

/-- A database whose `ItemTable` key query raises. -/
def dbItemFails : DB :=
  ⟨[⟨"ItemTable", "table", ["key", "value"], []⟩],
   fun q => match q with
            | .selectKeys t => if t == "ItemTable" then some "disk I/O error" else none
            | _ => none⟩

/-- A database whose generic-table queries raise. -/
def dbGenericFails : DB :=
  ⟨[⟨"Blobs", "table", ["id"], [["1"]]⟩],
   fun q => match q with
            | .countRows t => if t == "Blobs" then some "database is locked" else none
            | _ => none⟩

/-! ### Theorems -/

/-- Auxiliary: any character list containing `"aichat"` as a substring also
contains `"chat"` as a substring, since `"chat"` is a substring of `"aichat"`. -/
theorem aichat_imp_chat (s : List Char) :
    containsSub "aichat".data s = true → containsSub "chat".data s = true := by
  unfold containsSub
  rw [decide_eq_true_iff, decide_eq_true_iff]
  intro h
  exact List.IsInfix.trans (by decide) h

/-- C3: for a candidate whose path does not exist, the output is exactly the
header line followed by `FILE NOT FOUND`, the connection is never attempted,
and the loop moves to the next candidate. -/
theorem C3_missing_file (n p : String) :
    inspectCandidate n p .missing =
      ⟨[Line.header n p, Line.fileNotFound], false, false, false⟩ := rfl

/-- C6: the chat-like filter flags a key iff one of the literal substrings
`"chat"`, `"composer"`, `"aichat"`, `"bubble"` occurs in the key's lowercased
form; in particular `"MyChatSession"` is flagged and `"settings"` is not. -/
theorem C6_chat_filter :
    (∀ k : String, itemChatLike k = true ↔
      ("chat".data <:+: lowerStr k ∨ "composer".data <:+: lowerStr k ∨
       "aichat".data <:+: lowerStr k ∨ "bubble".data <:+: lowerStr k)) ∧
    itemChatLike "MyChatSession" = true ∧ itemChatLike "settings" = false := by
  refine ⟨fun k => ?_, by decide, by decide⟩
  simp [itemChatLike, containsSub, Bool.or_eq_true, or_assoc]

/-- C10: the ItemTable filter (line 24) and the cursorDiskKV filter
(line 31) select exactly the same keys: dropping `"aichat"` changes nothing
because every string containing `"aichat"` also contains `"chat"`. -/
theorem C10_filters_extensionally_equal (k : String) :
    itemChatLike k = diskChatLike k := by
  have key := aichat_imp_chat (lowerStr k)
  unfold itemChatLike diskChatLike
  cases h1 : containsSub "chat".data (lowerStr k) <;>
    cases h2 : containsSub "composer".data (lowerStr k) <;>
      cases h3 : containsSub "aichat".data (lowerStr k) <;>
        cases h4 : containsSub "bubble".data (lowerStr k) <;>
          simp_all

/-- C1: the run never raises: it yields exactly one result per configured
candidate, the result of candidate `i` depends only on candidate `i` (so
every subsequent candidate is attempted no matter how many fail), and any
exception raised while processing one candidate is caught and reported as
an `ERROR:` line that is the last line of that candidate's output. -/
theorem C1_errors_caught (cands : List (String × String)) (world : String → FileState) :
    (runScript cands world).length = cands.length ∧
    (∀ i : Nat, (runScript cands world)[i]? =
      (cands[i]?).map (fun c => inspectCandidate c.1 c.2 (world c.2))) ∧
    (∀ n p fs e, candErr fs = some e →
      (inspectCandidate n p fs).lines.getLast? = some (Line.error e)) := by
  refine ⟨by simp [runScript], fun i => by simp [runScript], fun n p fs e he => ?_⟩
  match fs with
  | .missing => simp [candErr] at he
  | .present (some e') db =>
    simp only [candErr, Option.some.injEq] at he
    subst he
    rfl
  | .present none db =>
    simp only [candErr] at he
    rcases hb : inspectBody db with ⟨out, err⟩
    rw [hb] at he
    simp only at he
    subst he
    simp only [inspectCandidate, hb]
    rw [show Line.header n p :: (out ++ [Line.error e])
          = (Line.header n p :: out) ++ [Line.error e] from rfl]
    exact List.getLast?_concat _

/-- Witness for C1 at a concrete failing candidate: a connection failure is
reported as the final `ERROR:` line of that candidate. -/
theorem C1_witness :
    (inspectCandidate "Trae" "p" (.present (some "unable to open database file") dbEmpty)).lines.getLast?
      = some (Line.error "unable to open database file") :=
  (C1_errors_caught [] (fun _ => FileState.missing)).2.2 "Trae" "p" _
    "unable to open database file" rfl

/-- C2 as stated is false: here is a candidate whose connection is opened
and whose `ItemTable` key query then raises; the handler catches the error
but `c.close()` (line 45) is skipped, so the handle is not released before
the next candidate. -/
theorem C2_counterexample :
    (inspectCandidate "Trae" "p" (.present none dbItemFails)).opened = true ∧
    (inspectCandidate "Trae" "p" (.present none dbItemFails)).closed = false := by
  constructor <;> rfl

/-- C2 amended: the connection handle is released before the next candidate
exactly when the connection was opened and the inspection body completed
without raising; when an error occurs mid-inspection the close is skipped. -/
theorem C2_amended_close_iff_no_error (n p : String) (fs : FileState) :
    (inspectCandidate n p fs).closed = true ↔
      ((inspectCandidate n p fs).opened = true ∧ candErr fs = none) := by
  match fs with
  | .missing => simp [inspectCandidate, candErr]
  | .present (some e) db => simp [inspectCandidate, candErr]
  | .present none db =>
    rcases hb : inspectBody db with ⟨out, err⟩
    cases err <;> simp [inspectCandidate, candErr, hb]

/-- C4: whenever the catalog query succeeds, the first line after the header
is the table list, equal to the names of the catalog entries of kind
`"table"`, in catalog order, with no sorting applied. -/
theorem C4_table_list (db : DB) (h : db.fail .listTables = none) :
    (inspectBody db).1.head? =
      some (Line.tablesLine
        ((db.tables.filter (fun t => t.kind == "table")).map (fun t => t.name))) := by
  unfold inspectBody listTables
  rw [h]
  rcases h1 : itemSection db ((db.tables.filter (fun t => t.kind == "table")).map (fun t => t.name)) with ⟨o1, e1⟩
  cases e1
  · rcases h2 : diskSection db ((db.tables.filter (fun t => t.kind == "table")).map (fun t => t.name)) with ⟨o2, e2⟩
    cases e2 <;> simp [h1, h2]
  · simp [h1]

/-- Witness for C4 on a concrete database: the printed list keeps catalog
order and omits the index entry. -/
theorem C4_witness :
    (inspectBody dbSample).1.head? =
      some (Line.tablesLine ["ItemTable", "cursorDiskKV", "Blobs", "EmptyT"]) :=
  C4_table_list dbSample rfl

/-- C5: for each of the two special-cased key-value tables, the printed key
count equals `min 30` of the actual row count (the `LIMIT 30` sample size),
the displayed sample is the first 15 sampled keys (hence never exceeds 15
entries), and the `Chat-related keys:` line appears exactly when the
chat-like subset is non-empty. -/
theorem C5_special_key_sampling (db : DB) (tables : List String)
    (td td2 : TableData) (i j : Nat) :
    (findTable db "ItemTable" = some td →
     td.columns.findIdx? (fun c2 => c2 == "key") = some i →
     db.fail (.selectKeys "ItemTable") = none →
     "ItemTable" ∈ tables →
       itemSection db tables =
         (Line.itemTableKeys (min 30 td.rows.length)
            (((td.rows.take 30).map (fun r => r.getD i "")).take 15) ::
           (if (((td.rows.take 30).map (fun r => r.getD i "")).filter itemChatLike).isEmpty
            then []
            else [Line.chatKeys
                (((td.rows.take 30).map (fun r => r.getD i "")).filter itemChatLike)]),
          none) ∧
       (((td.rows.take 30).map (fun r => r.getD i "")).take 15).length ≤ 15) ∧
    (findTable db "cursorDiskKV" = some td2 →
     td2.columns.findIdx? (fun c2 => c2 == "key") = some j →
     db.fail (.selectKeys "cursorDiskKV") = none →
     "cursorDiskKV" ∈ tables →
       diskSection db tables =
         (Line.diskKVKeys (min 30 td2.rows.length)
            (((td2.rows.take 30).map (fun r => r.getD j "")).take 15) ::
           (if (((td2.rows.take 30).map (fun r => r.getD j "")).filter diskChatLike).isEmpty
            then []
            else [Line.chatKeys
                (((td2.rows.take 30).map (fun r => r.getD j "")).filter diskChatLike)]),
          none) ∧
       (((td2.rows.take 30).map (fun r => r.getD j "")).take 15).length ≤ 15) := by
  constructor
  · intro hf hi hq hm
    refine ⟨?_, by simp [List.length_take]⟩
    unfold itemSection selectKeys
    rw [if_pos hm]
    simp [hq, hf, hi, List.length_take, List.length_map]
  · intro hf hi hq hm
    refine ⟨?_, by simp [List.length_take]⟩
    unfold diskSection selectKeys
    rw [if_pos hm]
    simp [hq, hf, hi, List.length_take, List.length_map]

/-- C7: a generic table (neither special name) whose queries succeed
produces no line when it has zero rows, and exactly one line with its exact
row count and its full column-name list in schema order when non-empty. -/
theorem C7_generic_table_report (db : DB) (t : String) (td : TableData)
    (hspec : ¬(t = "ItemTable" ∨ t = "cursorDiskKV"))
    (hf : findTable db t = some td)
    (hc : db.fail (.countRows t) = none)
    (hi : db.fail (.tableInfo t) = none) :
    (td.rows.length = 0 → genericLine db t = []) ∧
    (0 < td.rows.length →
      genericLine db t = [Line.genericTable t td.rows.length td.columns]) := by
  push_neg at hspec
  have hcond : (t == "ItemTable" || t == "cursorDiskKV") = false := by
    simp [hspec.1, hspec.2]
  unfold genericLine countRows tableInfo
  rw [hcond]
  constructor
  · intro h0
    simp [hc, hf, hi, h0]
  · intro hpos
    simp [hc, hf, hi, hpos]

/-- C8: an error raised while inspecting one generic table (row count or
column metadata query) is swallowed silently: that table contributes no
line, and the scan continues unchanged with the remaining tables. -/
theorem C8_generic_error_swallowed (db : DB) (t : String) (ts : List String) (e : String)
    (h : db.fail (.countRows t) = some e ∨ db.fail (.tableInfo t) = some e) :
    genericLine db t = [] ∧ scanGeneric db (t :: ts) = scanGeneric db ts := by
  have hgl : genericLine db t = [] := by
    unfold genericLine
    split
    · rfl
    · rcases h with h | h
      · unfold countRows
        rw [h]
      · unfold countRows
        cases hc : db.fail (.countRows t) with
        | some e2 => rfl
        | none =>
          cases hft : findTable db t with
          | none => rfl
          | some td =>
            simp only
            split
            · unfold tableInfo
              rw [h]
            · rfl
  refine ⟨hgl, ?_⟩
  show genericLine db t ++ scanGeneric db ts = scanGeneric db ts
  rw [hgl, List.nil_append]

/-- C9: per-table error swallowing covers only the generic scan: a raise in
the `ItemTable` key query aborts the whole candidate body right after the
table list (the other special table and the generic scan are skipped) and
surfaces as the candidate-level `ERROR:` line; likewise a raise in the
`cursorDiskKV` key query skips the generic scan. -/
theorem C9_special_error_aborts_candidate (db : DB) (tables : List String) (e : String) :
    (listTables db = .ok tables → "ItemTable" ∈ tables →
     db.fail (.selectKeys "ItemTable") = some e →
       inspectBody db = ([Line.tablesLine tables], some e) ∧
       ∀ n p, (inspectCandidate n p (.present none db)).lines =
         [Line.header n p, Line.tablesLine tables, Line.error e]) ∧
    (∀ o1, listTables db = .ok tables → itemSection db tables = (o1, none) →
     "cursorDiskKV" ∈ tables → db.fail (.selectKeys "cursorDiskKV") = some e →
       inspectBody db = (Line.tablesLine tables :: o1, some e)) := by
  constructor
  · intro hl hm hq
    have hitem : itemSection db tables = ([], some e) := by
      unfold itemSection selectKeys
      rw [if_pos hm, hq]
    have hbody : inspectBody db = ([Line.tablesLine tables], some e) := by
      simp [inspectBody, hl, hitem]
    exact ⟨hbody, fun n p => by simp [inspectCandidate, hbody]⟩
  · intro o1 hl hitem hm hq
    have hdisk : diskSection db tables = ([], some e) := by
      unfold diskSection selectKeys
      rw [if_pos hm, hq]
    simp [inspectBody, hl, hitem, hdisk]

/-- Witness for C5 on a concrete database: 2 of 2 rows sampled, both shown,
and the chat-like subset line present because `"MyChatSession"` matches. -/
theorem C5_witness :
    itemSection dbSample ["ItemTable", "cursorDiskKV", "Blobs", "EmptyT"] =
      ([Line.itemTableKeys 2 ["k1", "MyChatSession"], Line.chatKeys ["MyChatSession"]],
       none) ∧
    (["k1", "MyChatSession"] : List String).length ≤ 15 :=
  (C5_special_key_sampling dbSample ["ItemTable", "cursorDiskKV", "Blobs", "EmptyT"]
      ⟨"ItemTable", "table", ["key", "value"], [["k1", "v1"], ["MyChatSession", "v2"]]⟩
      ⟨"cursorDiskKV", "table", ["key", "value"], [["composerData", "v"]]⟩ 0 0).1
    rfl rfl rfl (by decide)

/-- Witness for C7 on a concrete database: the non-empty generic table
`Blobs` yields exactly one line with its row count and column names. -/
theorem C7_witness :
    genericLine dbSample "Blobs" = [Line.genericTable "Blobs" 1 ["id", "data"]] :=
  (C7_generic_table_report dbSample "Blobs" ⟨"Blobs", "table", ["id", "data"], [["1", "x"]]⟩
      (by decide) rfl rfl rfl).2 (by decide)

/-- Witness for C8 on a concrete database: a locked-table count query makes
the table vanish from the report while the scan proceeds. -/
theorem C8_witness :
    genericLine dbGenericFails "Blobs" = [] ∧
    scanGeneric dbGenericFails ["Blobs", "Other"] = scanGeneric dbGenericFails ["Other"] :=
  C8_generic_error_swallowed dbGenericFails "Blobs" ["Other"] "database is locked" (Or.inl rfl)

/-- Witness for C9 on a concrete database: the `ItemTable` key query raise
aborts the body right after the table list. -/
theorem C9_witness :
    inspectBody dbItemFails = ([Line.tablesLine ["ItemTable"]], some "disk I/O error") :=
  ((C9_special_error_aborts_candidate dbItemFails ["ItemTable"] "disk I/O error").1
    rfl (by decide) rfl).1

end CheckDb
